import Mathlib

/-!
Verification of the lifecycle/daemon-control subsystem of the `ninja`
command-line controller (source: `src/src/args_handle.rs`).

The Rust source is shallowly embedded:
* `ServeArgs` mirrors the CLI argument record as used by `serve`
  (field set taken from its uses in `args_handle.rs` together with the
  config-key table of the spec; filesystem paths and keys are `String`,
  numeric options are `Nat`).
* `serve` embeds the config-resolution part of `fn serve`: the optional
  relative-path fixup, the optional config-file read/parse that wholly
  replaces the argument record, and the builder calls that produce the
  resolved configuration handed to the external launcher.  File reading
  (`std::fs::read` plus UTF-8 decoding) and TOML parsing are external
  effects, passed in as explicit `Except`-valued functions.
* `generate_template` embeds `fn generate_template` over an explicit
  filesystem state (`FS`) whose paths are component lists.
* `serve_start` / `serve_stop` / `serve_status` embed the unix daemon
  control functions over a `DaemonFS` state that holds the three files
  living at the fixed paths `PID_PATH`, `DEFAULT_STDOUT_PATH` and
  `DEFAULT_STDERR_PATH` (content and unix permission mode each).
  Signal delivery (`nix::sys::signal::kill`) is external and passed in
  as a predicate on the signalled pid.
-/

/-- Errors of the embedded operations.  The Rust code funnels everything
through `anyhow`; we keep one constructor per distinct failure site. -/
inductive Err where
  /-- `std::fs::read` failure or UTF-8 decode failure in `serve`. -/
  | ioError
  /-- `toml::from_str` failure in `serve`. -/
  | decodeError
  /-- the `anyhow::bail!` ("not a file") in `generate_template`. -/
  | notAFile
  /-- `pid.parse::<i32>()?` failure in `serve_stop`. -/
  | pidCorrupt
  /-- `std::fs::create_dir_all` failure propagated by the `?` in
  `generate_template` (line 178). -/
  | fsError
deriving Repr, DecidableEq

/-- The CLI argument record consumed by `serve` (crate::args::ServeArgs),
with the fields `args_handle.rs` reads.  Fields the code `unwrap_or`s or
the template comments out are `Option`; the rest are plain values. -/
structure ServeArgs where
  config : Option String
  host : Option String
  port : Option Nat
  proxies : Option (List String)
  api_prefix : Option String
  tls_cert : Option String
  tls_key : Option String
  tcp_keepalive : Nat
  timeout : Nat
  connect_timeout : Nat
  workers : Nat
  concurrent_limit : Nat
  cf_site_key : Option String
  cf_secret_key : Option String
  disable_webui : Bool
  tb_enable : Bool
  tb_store_strategy : String
  tb_redis_url : List String
  tb_capacity : Nat
  tb_fill_rate : Nat
  tb_expired : Nat
  sign_secret_key : Option String
deriving Repr, DecidableEq

/-- The resolved configuration assembled by the `LauncherBuilder` calls
in `serve` (one field per builder setter). -/
structure ResolvedConfig where
  host : String
  port : Nat
  proxies : List String
  api_prefix : Option String
  tls_keypair : Option (String × String)
  tcp_keepalive : Nat
  timeout : Nat
  connect_timeout : Nat
  workers : Nat
  concurrent_limit : Nat
  cf_site_key : Option String
  cf_secret_key : Option String
  disable_ui : Bool
  tb_enable : Bool
  tb_store_strategy : String
  tb_redis_url : List String
  tb_capacity : Nat
  tb_fill_rate : Nat
  tb_expired : Nat
  sign_secret_key : Option String
deriving Repr, DecidableEq

/-- The builder chain of `serve` (args_handle.rs lines 16-49): defaults
for host (`0.0.0.0`), port (7999) and proxies (empty); `tls_keypair` is
set to `None` first (line 25) and overwritten with the pair only when
both `tls_cert` and `tls_key` are present (lines 47-49). -/
def buildConfig (args : ServeArgs) : ResolvedConfig :=
  let base : ResolvedConfig :=
    { host := args.host.getD "0.0.0.0"
      port := args.port.getD 7999
      proxies := args.proxies.getD []
      api_prefix := ServeArgs.api_prefix args
      tls_keypair := none
      tcp_keepalive := args.tcp_keepalive
      timeout := args.timeout
      connect_timeout := args.connect_timeout
      workers := args.workers
      concurrent_limit := args.concurrent_limit
      cf_site_key := args.cf_site_key
      cf_secret_key := args.cf_secret_key
      disable_ui := args.disable_webui
      tb_enable := args.tb_enable
      tb_store_strategy := args.tb_store_strategy
      tb_redis_url := args.tb_redis_url
      tb_capacity := args.tb_capacity
      tb_fill_rate := args.tb_fill_rate
      tb_expired := args.tb_expired
      sign_secret_key := args.sign_secret_key }
  match args.tls_cert, args.tls_key with
  | some cert, some key => { base with tls_keypair := some (cert, key) }
  | _, _ => base

/-- `fn serve` (args_handle.rs lines 5-51), up to the hand-over to the
external launcher: optional `fix_relative_path` rewrite (external, passed
in as `fixRel`), then — when a config path is supplied — read the file and
parse it as a whole `ServeArgs`, the parse result replacing `args`
entirely (line 14), then assemble the resolved configuration. -/
def serve (fixRel : ServeArgs → ServeArgs)
    (readFile : String → Except Err String)
    (parseToml : String → Except Err ServeArgs)
    (args : ServeArgs) (relativePath : Bool) : Except Err ResolvedConfig :=
  let args := if relativePath then fixRel args else args
  match args.config with
  | some path =>
    match readFile path with
    | .error e => .error e
    | .ok data =>
      match parseToml data with
      | .error e => .error e
      | .ok fileArgs => .ok (buildConfig fileArgs)
  | none => .ok (buildConfig args)

/-- Filesystem paths as component lists (abstracting `std::path::PathBuf`). -/
abbrev FsPath := List String

/-- `Path::parent`: `none` for the empty path, otherwise the path with the
last component dropped. -/
def FsPath.parent (p : FsPath) : Option FsPath :=
  match p with
  | [] => none
  | _ :: _ => some p.dropLast

/-- The nonempty prefixes of a path, shortest first (the chain of
directories `std::fs::create_dir_all` establishes). -/
def FsPath.chain (p : FsPath) : List FsPath :=
  (List.range p.length).map fun i => p.take (i + 1)

/-- Filesystem state for `generate_template`: the set of existing
directories and the regular files (path, content, unix mode). -/
structure FS where
  dirs : List FsPath
  files : List (FsPath × String × Nat)
deriving Repr, DecidableEq

/-- `Path::exists`: the path names an existing directory or file. -/
def FS.existsPath (fs : FS) (p : FsPath) : Prop :=
  p ∈ fs.dirs ∨ p ∈ fs.files.map Prod.fst

instance (fs : FS) (p : FsPath) : Decidable (fs.existsPath p) := by
  unfold FS.existsPath
  infer_instance

/-- One directory-creation pass over a component chain, shortest prefix
first, as `std::fs::create_dir_all` performs it: an existing directory is
skipped, a component occupied by a regular file is an error (`mkdir`
fails and the path is not a directory) with the directories created so
far persisting, and a missing component is created. -/
def mkdirChain : FS → List FsPath → FS × Except Err Unit
  | fs, [] => (fs, .ok ())
  | fs, q :: rest =>
    if q ∈ fs.dirs then mkdirChain fs rest
    else if q ∈ fs.files.map Prod.fst then (fs, .error .fsError)
    else mkdirChain { fs with dirs := q :: fs.dirs } rest

/-- `std::fs::create_dir_all`: create every missing directory on the
chain leading to `p`; fails when a chain component is occupied by a
regular file, leaving the directories already created in place. -/
def FS.mkdirAll (fs : FS) (p : FsPath) : FS × Except Err Unit :=
  mkdirChain fs p.chain

/-- `File::create` + `set_permissions` + `std::fs::write` on `p`: the file
ends up holding `content` with mode `m`, replacing any previous entry. -/
def FS.writeFile (fs : FS) (p : FsPath) (content : String) (m : Nat) : FS :=
  { fs with files := (p, content, m) :: fs.files.filter (fun e => e.1 ≠ p) }

/-- The fixed scaffold text written by `generate_template`
(args_handle.rs line 189). -/
def template : String :=
  "host=\"0.0.0.0\"\nport=7999\nworkers=1\n#proxies=[]\ntimeout=600\nconnect_timeout=60\ntcp_keepalive=60\n#tls_cert=\n#tls_key=\n#api_prefix=\ntb_enable=false\ntb_store_strategy=\"mem\"\ntb_redis_url=[\"redis://127.0.0.1:6379\"]\ntb_capacity=60\ntb_fill_rate=1\ntb_expired=86400\n#sign_secret_key=\n#cf_site_key=\n#cf_secret_key=\n"

/-- The path-resolution step of `generate_template` for a supplied
non-directory target (args_handle.rs lines 176-180): when the target has
a parent that does not exist, run `create_dir_all(parent)?`, whose error
propagates. -/
def resolveParent (fs : FS) (out : FsPath) : FS × Except Err Unit :=
  match out.parent with
  | some parent =>
    if fs.existsPath parent then (fs, .ok ()) else fs.mkdirAll parent
  | none => (fs, .ok ())

/-- `fn generate_template` (args_handle.rs lines 172-206): when a target
path is given, first bail if it is an existing directory, else create its
parent chain when the parent is absent (`create_dir_all`'s failure
returned by `?`); with no target, default to `opengpt-serve.toml` in the
current working directory.  Only afterwards is `cover` consulted: `true`
(re)creates the file with mode 0o755 and writes the scaffold, `false`
does nothing further.  The state is returned alongside the outcome so
frame conditions can be stated. -/
def generate_template (fs : FS) (cwd : FsPath) (cover : Bool)
    (out : Option FsPath) : FS × Except Err Unit :=
  match out with
  | some out =>
    if out ∈ fs.dirs then
      (fs, .error .notAFile)
    else
      match resolveParent fs out with
      | (fs1, .error e) => (fs1, .error e)
      | (fs1, .ok _) =>
        if cover then (fs1.writeFile out template 0o755, .ok ())
        else (fs1, .ok ())
  | none =>
    let out := cwd ++ ["opengpt-serve.toml"]
    if cover then (fs.writeFile out template 0o755, .ok ())
    else (fs, .ok ())

/-- Daemon-control filesystem state: the three files at the fixed paths
`PID_PATH`, `DEFAULT_STDOUT_PATH`, `DEFAULT_STDERR_PATH`, each either
absent or present with (content, unix mode). -/
structure DaemonFS where
  pidFile : Option (String × Nat)
  stdoutFile : Option (String × Nat)
  stderrFile : Option (String × Nat)
deriving Repr, DecidableEq

/-- The three fixed file locations of the daemon-control subsystem. -/
inductive FileId where
  | pid
  | stdoutRedirect
  | stderrRedirect
deriving Repr, DecidableEq

/-- Read one of the three fixed-path files. -/
def DaemonFS.lookup (fs : DaemonFS) : FileId → Option (String × Nat)
  | .pid => fs.pidFile
  | .stdoutRedirect => fs.stdoutFile
  | .stderrRedirect => fs.stderrFile

/-- Replace one of the three fixed-path files. -/
def DaemonFS.store (fs : DaemonFS) (f : FileId) (v : Option (String × Nat)) :
    DaemonFS :=
  match f with
  | .pid => { fs with pidFile := v }
  | .stdoutRedirect => { fs with stdoutFile := v }
  | .stderrRedirect => { fs with stderrFile := v }

/-- Mode a freshly created file receives (0o666 masked by the usual
umask); only its difference from 0o755 matters below. -/
def defaultMode : Nat := 0o644

/-- `File::create`: truncate to empty content; a pre-existing file keeps
its permission mode, a new one gets `defaultMode`. -/
def DaemonFS.create (fs : DaemonFS) (f : FileId) : DaemonFS :=
  fs.store f (some ("", ((fs.lookup f).map Prod.snd).getD defaultMode))

/-- `File::set_permissions(Permissions::from_mode m)` on an existing file. -/
def DaemonFS.setMode (fs : DaemonFS) (f : FileId) (m : Nat) : DaemonFS :=
  match fs.lookup f with
  | some (c, _) => fs.store f (some (c, m))
  | none => fs

/-- Modelled from the spec: `get_pid` lives in `crate::env`, which is not
under src/.  Per spec §4.3 (PidRegistry) and §3 (PidRecord), it reads the
pid record at the fixed pid-file path: `None` when the file is absent,
otherwise the stored content (parsing is done by the caller,
args_handle.rs line 117). -/
def get_pid (fs : DaemonFS) : Option String :=
  fs.pidFile.map Prod.fst

/-- Outcome of `serve_start` (the printed message and what follows). -/
inductive StartOutcome where
  /-- "OpenGPT is already running with pid: _": early `Ok(())` return. -/
  | alreadyRunning (pid : String)
  /-- admission: support files created, detach and launch follow. -/
  | launched
deriving Repr, DecidableEq

/-- `fn serve_start` (args_handle.rs lines 54-106) up to the detach: if a
pid is recorded, report already-running and return with no mutation;
otherwise create the pid file and the stdout/stderr redirect files and
set permission modes exactly as the source does — note line 76 calls
`stdout.set_permissions` a second time where the stderr file was just
created.  `check_root` (crate::env) and the daemonize/launch that follow
are external and outside this state. -/
def serve_start (fs : DaemonFS) : DaemonFS × StartOutcome :=
  match get_pid fs with
  | some pid => (fs, .alreadyRunning pid)
  | none =>
    let fs := (fs.create .pid).setMode .pid 0o755
    let fs := (fs.create .stdoutRedirect).setMode .stdoutRedirect 0o755
    let fs := fs.create .stderrRedirect
    let fs := fs.setMode .stdoutRedirect 0o755
    (fs, .launched)

/-- Rust `str::parse::<i32>`: an optional sign followed by one or more
ASCII digits, value within the i32 range; anything else fails. -/
def parseI32 (s : String) : Option Int :=
  let norm : Int × List Char :=
    match s.data with
    | '-' :: rest => (-1, rest)
    | '+' :: rest => (1, rest)
    | cs => (1, cs)
  match norm with
  | (sign, ds) =>
    if ds ≠ [] ∧ ds.all Char.isDigit then
      let n : Nat := ds.foldl (fun acc c => acc * 10 + (c.toNat - 48)) 0
      let v : Int := sign * n
      if -2147483648 ≤ v ∧ v ≤ 2147483647 then some v else none
    else none

/-- Outcome of `serve_stop` on the non-error paths. -/
inductive StopOutcome where
  /-- signal delivered to the recorded pid. -/
  | signaled
  /-- "OpenGPT is not running" (no record, or delivery failed). -/
  | notRunning
deriving Repr, DecidableEq

/-- `fn serve_stop` (args_handle.rs lines 109-127): read the pid record;
absent means report not-running and succeed.  Present content is parsed
as `i32` with `?` — failure is an error before anything else happens.  On
a parsed pid, `kill(pid, SIGINT)` (external, modelled by the `killOk`
predicate) may fail, which only prints not-running; the pid file is then
removed with its own failure ignored (`let _ = remove_file`, modelled as
the removal taking effect). -/
def serve_stop (killOk : Int → Bool) (fs : DaemonFS) :
    DaemonFS × Except Err StopOutcome :=
  match get_pid fs with
  | some s =>
    match parseI32 s with
    | none => (fs, .error .pidCorrupt)
    | some pid =>
      let out := if killOk pid then StopOutcome.signaled else .notRunning
      ({ fs with pidFile := none }, .ok out)
  | none => (fs, .ok .notRunning)

/-- `fn serve_status` (args_handle.rs lines 140-148): report the recorded
pid content, purely from the pid record. -/
def serve_status (fs : DaemonFS) : Option String :=
  get_pid fs

/-- A `ServeArgs` with nothing supplied (base point for concrete tests). -/
def emptyArgs : ServeArgs :=
  { config := none, host := none, port := none, proxies := none
    api_prefix := none, tls_cert := none, tls_key := none
    tcp_keepalive := 60, timeout := 600, connect_timeout := 60
    workers := 1, concurrent_limit := 100
    cf_site_key := none, cf_secret_key := none, disable_webui := false
    tb_enable := false, tb_store_strategy := "mem"
    tb_redis_url := ["redis://127.0.0.1:6379"]
    tb_capacity := 60, tb_fill_rate := 1, tb_expired := 86400
    sign_secret_key := none }

/-- The spec-side reading of "parseable as a non-negative integer"
(spec §4.3): one or more ASCII digits, no sign. -/
def specParseNonNeg (s : String) : Option Nat :=
  if s.data ≠ [] ∧ s.data.all Char.isDigit then
    some (s.data.foldl (fun acc c => acc * 10 + (c.toNat - 48)) 0)
  else none

/-- A CLI argument set supplying a TLS certificate but no key. -/
def certOnlyArgs : ServeArgs := { emptyArgs with tls_cert := some "cert.pem" }

/-- The empty filesystem. -/
def emptyFS : FS := { dirs := [], files := [] }

/-- The daemon state with none of the three fixed-path files present. -/
def emptyDaemonFS : DaemonFS :=
  { pidFile := none, stdoutFile := none, stderrFile := none }

/-- A daemon state whose pid record holds the non-numeric content `-5`:
not a non-negative integer, yet accepted by `pid.parse::<i32>()`. -/
def negPidFS : DaemonFS :=
  { pidFile := some ("-5", 0o755), stdoutFile := none, stderrFile := none }

theorem buildConfig_port (a : ServeArgs) :
    (buildConfig a).port = a.port.getD 7999 := by
  unfold buildConfig
  cases a.tls_cert <;> cases a.tls_key <;> rfl

/-- C1: with a config path supplied, a successful read and parse makes the
result `buildConfig fileArgs`, a value of the parsed file alone — two CLI
argument sets with the same config path resolve identically, and a file
port of 9000 yields port 9000 whatever the CLI said. -/
theorem serve_config_file_wholly_replaces_cli
    (fixRel : ServeArgs → ServeArgs)
    (readFile : String → Except Err String)
    (parseToml : String → Except Err ServeArgs)
    (args args2 fileArgs : ServeArgs) (path data : String)
    (hc : args.config = some path) (hc2 : args2.config = some path)
    (hr : readFile path = .ok data) (hp : parseToml data = .ok fileArgs) :
    serve fixRel readFile parseToml args false = .ok (buildConfig fileArgs) ∧
    serve fixRel readFile parseToml args2 false =
      serve fixRel readFile parseToml args false ∧
    (fileArgs.port = some 9000 →
      ∃ cfg, serve fixRel readFile parseToml args false = .ok cfg ∧
        cfg.port = 9000) := by
  have h1 : serve fixRel readFile parseToml args false =
      .ok (buildConfig fileArgs) := by
    simp [serve, hc, hr, hp]
  have h2 : serve fixRel readFile parseToml args2 false =
      .ok (buildConfig fileArgs) := by
    simp [serve, hc2, hr, hp]
  refine ⟨h1, h2.trans h1.symm, fun hport => ⟨buildConfig fileArgs, h1, ?_⟩⟩
  rw [buildConfig_port, hport]
  rfl

theorem serve_config_file_wholly_replaces_cli_witness :
    serve id (fun _ => .ok "port=9000")
        (fun _ => .ok { emptyArgs with port := some 9000 })
        { emptyArgs with config := some "cfg.toml", port := some 8000 }
        false =
      .ok (buildConfig { emptyArgs with port := some 9000 }) ∧
    serve id (fun _ => .ok "port=9000")
        (fun _ => .ok { emptyArgs with port := some 9000 })
        { emptyArgs with config := some "cfg.toml", port := some 7000 }
        false =
      serve id (fun _ => .ok "port=9000")
        (fun _ => .ok { emptyArgs with port := some 9000 })
        { emptyArgs with config := some "cfg.toml", port := some 8000 }
        false ∧
    (({ emptyArgs with port := some 9000 } : ServeArgs).port = some 9000 →
      ∃ cfg, serve id (fun _ => .ok "port=9000")
          (fun _ => .ok { emptyArgs with port := some 9000 })
          { emptyArgs with config := some "cfg.toml", port := some 8000 }
          false = .ok cfg ∧ cfg.port = 9000) :=
  serve_config_file_wholly_replaces_cli id
    (fun _ => .ok "port=9000")
    (fun _ => .ok { emptyArgs with port := some 9000 })
    { emptyArgs with config := some "cfg.toml", port := some 8000 }
    { emptyArgs with config := some "cfg.toml", port := some 7000 }
    { emptyArgs with port := some 9000 }
    "cfg.toml" "port=9000" rfl rfl rfl rfl

/-- C2 counterexample: with only `tls_cert` supplied, `serve` succeeds —
resolution does not fail on an incomplete TLS pair. -/
theorem serve_incomplete_tls_not_rejected :
    certOnlyArgs.tls_cert.isSome = true ∧
    certOnlyArgs.tls_key.isSome = false ∧
    (serve id (fun _ => .error .ioError) (fun _ => .error .decodeError)
      certOnlyArgs false).isOk = true :=
  ⟨rfl, rfl, rfl⟩

/-- C2 (amended): `serve` never rejects a TLS argument set; it always
succeeds (given no config file to read), and the resolved keypair is
present exactly when both `tls_cert` and `tls_key` were supplied — so an
incomplete pair resolves with the keypair absent rather than an error. -/
theorem serve_tls_pair_completeness
    (fixRel : ServeArgs → ServeArgs)
    (readFile : String → Except Err String)
    (parseToml : String → Except Err ServeArgs)
    (args : ServeArgs) (hc : args.config = none) :
    ∃ cfg, serve fixRel readFile parseToml args false = .ok cfg ∧
      cfg.tls_keypair.isSome =
        (args.tls_cert.isSome && args.tls_key.isSome) := by
  refine ⟨buildConfig args, by simp [serve, hc], ?_⟩
  unfold buildConfig
  cases args.tls_cert <;> cases args.tls_key <;> rfl

theorem serve_tls_pair_completeness_witness :
    ∃ cfg, serve id (fun _ => .error .ioError) (fun _ => .error .decodeError)
        certOnlyArgs false = .ok cfg ∧
      cfg.tls_keypair.isSome =
        (certOnlyArgs.tls_cert.isSome && certOnlyArgs.tls_key.isSome) :=
  serve_tls_pair_completeness id (fun _ => .error .ioError)
    (fun _ => .error .decodeError) certOnlyArgs rfl

/-- C9: when exactly one of `tls_cert` / `tls_key` is supplied,
resolution succeeds and the resolved configuration carries no TLS
keypair: the incomplete pair is silently dropped. -/
theorem serve_one_sided_tls_silently_dropped
    (fixRel : ServeArgs → ServeArgs)
    (readFile : String → Except Err String)
    (parseToml : String → Except Err ServeArgs)
    (args : ServeArgs) (hc : args.config = none)
    (h : args.tls_cert.isSome ≠ args.tls_key.isSome) :
    ∃ cfg, serve fixRel readFile parseToml args false = .ok cfg ∧
      cfg.tls_keypair = none := by
  refine ⟨buildConfig args, by simp [serve, hc], ?_⟩
  revert h
  unfold buildConfig
  cases args.tls_cert <;> cases args.tls_key <;> simp

theorem serve_one_sided_tls_silently_dropped_witness :
    ∃ cfg, serve id (fun _ => .error .ioError) (fun _ => .error .decodeError)
        certOnlyArgs false = .ok cfg ∧ cfg.tls_keypair = none :=
  serve_one_sided_tls_silently_dropped id (fun _ => .error .ioError)
    (fun _ => .error .decodeError) certOnlyArgs rfl (by decide)

/-- C3 counterexample: with `cover = false` and target `a/b` over an empty
filesystem, `generate_template` creates the directory `a` — the
filesystem is not left unchanged. -/
theorem generate_template_nocover_touches_fs :
    (generate_template emptyFS [] false (some ["a", "b"])).1.dirs = [["a"]] ∧
    emptyFS.dirs = [] ∧
    (generate_template emptyFS [] false (some ["a", "b"])).1 ≠ emptyFS := by
  decide

theorem mkdirChain_files (l : List FsPath) (fs : FS) :
    (mkdirChain fs l).1.files = fs.files := by
  induction l generalizing fs with
  | nil => rfl
  | cons q rest ih =>
    unfold mkdirChain
    split
    · exact ih fs
    · split
      · rfl
      · exact ih _

theorem resolveParent_files (fs : FS) (p : FsPath) :
    (resolveParent fs p).1.files = fs.files := by
  unfold resolveParent
  split
  · split
    · rfl
    · exact mkdirChain_files _ fs
  · rfl

/-- C3 (amended): with `cover = false`, `generate_template` never
creates, modifies or deletes a file — the file table of the resulting
state equals the starting one in every outcome.  It is not a filesystem
no-op, though: the path-resolution step still runs first, so an
existing-directory target errors and a missing parent chain is created,
with `create_dir_all`'s own failure propagated. -/
theorem generate_template_nocover_no_file
    (fs : FS) (cwd : FsPath) (out : Option FsPath) :
    (generate_template fs cwd false out).1.files = fs.files := by
  match out with
  | none => rfl
  | some p =>
    by_cases hd : p ∈ fs.dirs
    · simp only [generate_template]
      rw [if_pos hd]
    · simp only [generate_template]
      rw [if_neg hd]
      have hfiles := resolveParent_files fs p
      cases hm : resolveParent fs p with
      | mk fs1 r =>
        rw [hm] at hfiles
        cases r with
        | error e => simpa using hfiles
        | ok u => simpa using hfiles

/-- C7: a target that names an existing directory makes
`generate_template` fail (the `bail!` at line 182) with the filesystem
unchanged, whatever `cover` is. -/
theorem generate_template_dir_target_fails
    (fs : FS) (cwd : FsPath) (cover : Bool) (p : FsPath)
    (h : p ∈ fs.dirs) :
    generate_template fs cwd cover (some p) = (fs, .error .notAFile) := by
  simp only [generate_template]
  rw [if_pos h]

theorem generate_template_dir_target_fails_witness :
    ["d"] ∈ ({ dirs := [["d"]], files := [] } : FS).dirs ∧
    generate_template { dirs := [["d"]], files := [] } [] true (some ["d"]) =
      ({ dirs := [["d"]], files := [] }, .error .notAFile) :=
  ⟨by decide, generate_template_dir_target_fails
    { dirs := [["d"]], files := [] } [] true ["d"] (by decide)⟩

/-- C4: when a pid is recorded, `serve_start` reports already-running and
returns with the state untouched — no file creation, no mode change, no
detach (the early return at lines 64-67). -/
theorem serve_start_already_running_noop
    (fs : DaemonFS) (pid : String) (h : get_pid fs = some pid) :
    serve_start fs = (fs, .alreadyRunning pid) := by
  unfold serve_start
  rw [h]

theorem serve_start_already_running_noop_witness :
    get_pid { pidFile := some ("123", 0o755), stdoutFile := none,
              stderrFile := none } = some "123" ∧
    serve_start { pidFile := some ("123", 0o755), stdoutFile := none,
                  stderrFile := none } =
      ({ pidFile := some ("123", 0o755), stdoutFile := none,
         stderrFile := none }, .alreadyRunning "123") :=
  ⟨rfl, serve_start_already_running_noop _ "123" rfl⟩

/-- C8 (code bug witness): admitting a new instance from the empty state
creates all three files, but only the pid file and the stdout redirect
end with mode 0o755 — line 76 sets `stdout`'s permissions a second time
instead of `stderr`'s, so the stderr redirect keeps the default mode. -/
theorem serve_start_stderr_mode_bug :
    serve_start emptyDaemonFS =
      ({ pidFile := some ("", 0o755), stdoutFile := some ("", 0o755),
         stderrFile := some ("", defaultMode) }, .launched) ∧
    defaultMode ≠ 0o755 := by
  constructor
  · rfl
  · decide

/-- C5: on a parseable pid record, `serve_stop` removes the record and
succeeds whatever the signal-delivery outcome (`killOk` arbitrary), and a
second call — again under any delivery behaviour — reports not-running,
succeeds, and leaves the record-free state fixed. -/
theorem serve_stop_idempotent
    (killOk killOk2 : Int → Bool) (fs : DaemonFS) (s : String) (m : Nat)
    (pid : Int) (h : fs.pidFile = some (s, m)) (hp : parseI32 s = some pid) :
    (∃ out, serve_stop killOk fs = ({ fs with pidFile := none }, .ok out)) ∧
    serve_stop killOk2 { fs with pidFile := none } =
      ({ fs with pidFile := none }, .ok .notRunning) := by
  constructor
  · exact ⟨if killOk pid then .signaled else .notRunning,
      by simp [serve_stop, get_pid, h, hp]⟩
  · simp [serve_stop, get_pid]

theorem serve_stop_idempotent_witness :
    ({ pidFile := some ("42", 0o755), stdoutFile := none,
       stderrFile := none } : DaemonFS).pidFile = some ("42", 0o755) ∧
    parseI32 "42" = some 42 ∧
    ((∃ out, serve_stop (fun _ => true)
        { pidFile := some ("42", 0o755), stdoutFile := none,
          stderrFile := none } =
        ({ pidFile := none, stdoutFile := none, stderrFile := none },
          .ok out)) ∧
      serve_stop (fun _ => false)
          { pidFile := none, stdoutFile := none, stderrFile := none } =
        ({ pidFile := none, stdoutFile := none, stderrFile := none },
          .ok .notRunning)) :=
  ⟨rfl, rfl, serve_stop_idempotent (fun _ => true) (fun _ => false)
    { pidFile := some ("42", 0o755), stdoutFile := none, stderrFile := none }
    "42" 0o755 42 rfl rfl⟩

/-- C6 counterexample: the pid-file content `-5` is not parseable as a
non-negative integer, yet `serve_stop` succeeds — the code parses the
content as a signed `i32` (line 117), so only sign-free parses are not
what gates the error. -/
theorem serve_stop_negative_pid_accepted :
    specParseNonNeg "-5" = none ∧
    parseI32 "-5" = some (-5) ∧
    (serve_stop (fun _ => true) negPidFS).2 = .ok .signaled :=
  ⟨rfl, rfl, rfl⟩

/-- C6 (amended): `serve_stop` fails exactly when the present pid-file
content is not parseable as a *signed 32-bit* integer (Rust
`parse::<i32>`), returning the parse error with the state unchanged. -/
theorem serve_stop_unparseable_pid_fails
    (killOk : Int → Bool) (fs : DaemonFS) (s : String) (m : Nat)
    (h : fs.pidFile = some (s, m)) (hp : parseI32 s = none) :
    serve_stop killOk fs = (fs, .error .pidCorrupt) := by
  simp [serve_stop, get_pid, h, hp]

theorem serve_stop_unparseable_pid_fails_witness :
    ({ pidFile := some ("abc", 0o644), stdoutFile := none,
       stderrFile := none } : DaemonFS).pidFile = some ("abc", 0o644) ∧
    parseI32 "abc" = none ∧
    serve_stop (fun _ => true)
        { pidFile := some ("abc", 0o644), stdoutFile := none,
          stderrFile := none } =
      ({ pidFile := some ("abc", 0o644), stdoutFile := none,
         stderrFile := none }, .error .pidCorrupt) :=
  ⟨rfl, rfl, serve_stop_unparseable_pid_fails (fun _ => true)
    { pidFile := some ("abc", 0o644), stdoutFile := none, stderrFile := none }
    "abc" 0o644 rfl rfl⟩

/-- C10: when `serve_stop` fails on unparseable pid content, the state is
returned unchanged — the corrupt record is not removed (the `?` at line
117 returns before `remove_file`) — so `serve_status` still reports the
recorded content and a repeated stop fails identically. -/
theorem serve_stop_corrupt_state_unchanged
    (killOk killOk2 : Int → Bool) (fs : DaemonFS) (s : String) (m : Nat)
    (h : fs.pidFile = some (s, m)) (hp : parseI32 s = none) :
    serve_stop killOk fs = (fs, .error .pidCorrupt) ∧
    serve_status fs = some s ∧
    serve_stop killOk2 fs = (fs, .error .pidCorrupt) := by
  refine ⟨?_, ?_, ?_⟩ <;>
    simp [serve_stop, serve_status, get_pid, h, hp]

theorem serve_stop_corrupt_state_unchanged_witness :
    ({ pidFile := some ("zzz", 0o755), stdoutFile := none,
       stderrFile := none } : DaemonFS).pidFile = some ("zzz", 0o755) ∧
    parseI32 "zzz" = none ∧
    (serve_stop (fun _ => true)
        { pidFile := some ("zzz", 0o755), stdoutFile := none,
          stderrFile := none } =
      ({ pidFile := some ("zzz", 0o755), stdoutFile := none,
         stderrFile := none }, .error .pidCorrupt) ∧
    serve_status
        { pidFile := some ("zzz", 0o755), stdoutFile := none,
          stderrFile := none } = some "zzz" ∧
    serve_stop (fun _ => false)
        { pidFile := some ("zzz", 0o755), stdoutFile := none,
          stderrFile := none } =
      ({ pidFile := some ("zzz", 0o755), stdoutFile := none,
         stderrFile := none }, .error .pidCorrupt)) :=
  ⟨rfl, rfl, serve_stop_corrupt_state_unchanged (fun _ => true)
    (fun _ => false)
    { pidFile := some ("zzz", 0o755), stdoutFile := none, stderrFile := none }
    "zzz" 0o755 rfl rfl⟩
